import Mathlib

/-!
Shallow embedding of pinnothera's provisioning core (src/main.rs, src/types.rs):
the environment-aware naming policy, the topic/queue/subscription provisioning
operations, and the exit-code aggregation performed by `main`.

Cloud interaction is modelled by a `Cloud` record of response functions; every
embedded operation returns its result together with the ordered list of requests
it sent.  The spawned-task structure of the Rust code is rendered sequentially:
tasks are only ever spawned after the awaited calls that precede them in the
source, so the request list of one unit of work is the concatenation of the
request lists of its phases.
-/

set_option autoImplicit false

namespace Pinnothera

/-- Environments recognised by pinnothera (src/types.rs, `EnvName`). -/
inductive EnvName
  | QA
  | Dev
  | Prod
  | Local
  | Unknown
  deriving DecidableEq

/-- Queue-name suffix table (src/types.rs, `EnvName::for_queue`). -/
def EnvName.for_queue : EnvName → String
  | EnvName.QA => "qa"
  | EnvName.Local => "local"
  | EnvName.Dev => "development"
  | EnvName.Prod => "production"
  | EnvName.Unknown => "unknown"

/-- Topic-name suffix table (src/types.rs, `EnvName::for_topic`). -/
def EnvName.for_topic : EnvName → String
  | EnvName.QA => "qa"
  | EnvName.Dev => "dev"
  | EnvName.Prod => "prod"
  | EnvName.Local => "local"
  | EnvName.Unknown => "unknown"

/-- Whether the environment is `Local` (src/types.rs, `EnvName::is_local`). -/
def EnvName.is_local : EnvName → Bool
  | EnvName.Local => true
  | _ => false

/-- Whether the environment is `Unknown` (src/types.rs, `EnvName::is_unknown`). -/
def EnvName.is_unknown : EnvName → Bool
  | EnvName.Unknown => true
  | _ => false

/-- Modelled from the spec: `EnvName::as_suffix` is invoked by `create_topic`
and `create_queue` in src/main.rs but its definition is not among the provided
sources.  The spec's unified suffix table is used (one suffix per environment;
section 8 fixes `Prod` to the suffix `prod` and section 9 documents the choice
of the unified, short-form table). -/
def EnvName.as_suffix : EnvName → String
  | EnvName.QA => "qa"
  | EnvName.Dev => "dev"
  | EnvName.Prod => "prod"
  | EnvName.Local => "local"
  | EnvName.Unknown => "unknown"

/-- The physical-name computation performed identically by `create_topic`
(src/main.rs:42-53) and `create_queue` (src/main.rs:93-103): the logical name is
used as-is in an Unknown environment and otherwise suffixed with `-` and the
environment suffix. -/
def physical_name (env : EnvName) (logical : String) : String :=
  if env.is_unknown then logical else logical ++ "-" ++ env.as_suffix

/-- One queue's configuration (src/types.rs, `SQSQueueConfig`). -/
structure SQSQueueConfig where
  topics : List String
  deriving DecidableEq

/-- The parsed configuration in iteration order (src/types.rs, `PinnConfig`
wrapping a `BTreeMap` from queue name to queue config). -/
abbrev PinnConfig := List (String × SQSQueueConfig)

/-- A request sent to a cloud API, as built at the call sites in src/main.rs.
`getQueueAttributes` always requests the single attribute `QueueArn`
(src/main.rs:197) and subscriptions always use protocol `sqs` (src/main.rs:289),
so those constants are recorded as part of the request. -/
inductive Request
  | createTopic (name : String)
  | createQueue (name : String) (attrs : List (String × String))
  | getQueueUrl (name : String)
  | getQueueAttributes (url : String)
  | subscribe (topicArn : String) (protocol : String) (endpoint : String)
  deriving DecidableEq

/-- Outcome of a cloud call that either fails outright or succeeds carrying one
optional field of interest (the ARN, URL or subscription ARN read by the
caller). -/
inductive CallResult
  | err
  | ok (field : Option String)
  deriving DecidableEq

/-- Outcome of a create-queue call: success with optional URL, the
`QueueNameExists` service error (src/main.rs:228, `is_queue_name_exists`), or
any other failure. -/
inductive CreateQueueOutcome
  | ok (queueUrl : Option String)
  | errQueueNameExists
  | errOther
  deriving DecidableEq

/-- The cloud's behaviour, one response function per operation used by the
core.  `getQueueAttributes` answers with the optional value found at the
`QueueArn` key of the returned attribute map. -/
structure Cloud where
  createTopic : String → CallResult
  createQueue : String → List (String × String) → CreateQueueOutcome
  getQueueUrl : String → CallResult
  getQueueAttributes : String → CallResult
  subscribe : String → String → String → CallResult

/-- Error taxonomy, tagging the distinct failure paths of src/main.rs:
`serviceError` for a propagated SDK error (`Err(error.into())`),
`contractViolation` for a `bail!` after a success response that omitted an
expected field, and `policyUnresolvable` for the `bail!` in the policy branch of
`create_queue` (src/main.rs:151-153). -/
inductive PinnError
  | serviceError
  | contractViolation
  | policyUnresolvable
  deriving DecidableEq

/-- The SQS queue ARN appearing in the generated policy
(src/main.rs:123 and :139). -/
def sqsArn (region accountId queue : String) : String :=
  "arn:aws:sqs:" ++ region ++ ":" ++ accountId ++ ":" ++ queue

/-- The SNS `SourceArn` pattern appearing in the generated policy
(src/main.rs:126): any topic in the region/account whose name ends in the
environment suffix. -/
def snsSourceArnPattern (region accountId suffix : String) : String :=
  "arn:aws:sns:" ++ region ++ ":" ++ accountId ++ ":*-" ++ suffix

/-- The account-root principal ARN appearing in the generated policy
(src/main.rs:136). -/
def iamRootArn (accountId : String) : String :=
  "arn:aws:iam::" ++ accountId ++ ":root"

/-- Literal policy text from the opening brace through the first statement's
`"Resource": "` (src/main.rs:117-123). -/
def polHead : String :=
  "\x7b\n        \"Version\": \"2008-10-17\",\n        \"Statement\": [\n            \x7b\n                \"Action\": \"sqs:SendMessage\",\n                \"Effect\": \"Allow\",\n                \"Resource\": \""

/-- Literal policy text between the first resource ARN and the `SourceArn`
condition value (src/main.rs:123-126). -/
def polCondPart : String :=
  "\",\n                \"Condition\": \x7b\n                    \"ArnLike\": \x7b\n                        \"aws:SourceArn\": \""

/-- Literal policy text from the end of the `SourceArn` value through the
`sns.amazonaws.com` principal and into the second statement's `"AWS": "`
(src/main.rs:126-136). -/
def polPrincipalPart : String :=
  "\"\n                    \x7d\n                \x7d,\n                \"Principal\": \x7b\n                    \"Service\": \"sns.amazonaws.com\"\n                \x7d\n            \x7d,\n            \x7b\n                \"Effect\": \"Allow\",\n                \"Principal\": \x7b\n                    \"AWS\": \""

/-- Literal policy text between the root principal ARN and the second
statement's `"Resource": "` (src/main.rs:136-139). -/
def polStmt2Part : String :=
  "\"\n                \x7d,\n                \"Action\": \"SQS:*\",\n                \"Resource\": \""

/-- Literal policy text closing the document (src/main.rs:139-142). -/
def polTailPart : String :=
  "\"\n            \x7d\n        ]\n    \x7d"

/-- The queue access-policy document built by `create_queue`
(src/main.rs:114-144), with the interpolated values factored through the named
ARN builders; `queue` is the already-suffixed physical queue name and `suffix`
the environment suffix. -/
def policyDocument (region accountId queue suffix : String) : String :=
  polHead ++ sqsArn region accountId queue
    ++ polCondPart ++ snsSourceArnPattern region accountId suffix
    ++ polPrincipalPart ++ iamRootArn accountId
    ++ polStmt2Part ++ sqsArn region accountId queue
    ++ polTailPart

/-- `create_topic` (src/main.rs:39-82): compute the physical name, call
create-topic, propagate an SDK failure, fail when the response omits the ARN,
and otherwise return it.  Exactly one request is sent in every case. -/
def create_topic (cloud : Cloud) (env : EnvName) (topic : String) :
    Except PinnError String × List Request :=
  (match cloud.createTopic (physical_name env topic) with
    | CallResult.err => Except.error PinnError.serviceError
    | CallResult.ok none => Except.error PinnError.contractViolation
    | CallResult.ok (some arn) => Except.ok arn,
    [Request.createTopic (physical_name env topic)])

/-- `get_queue_arn_from_url` (src/main.rs:187-221): fetch the queue's
attributes, propagate an SDK failure, fail when the `QueueArn` attribute is
absent, and otherwise return the URL/ARN pair.  Exactly one request is sent in
every case. -/
def get_queue_arn_from_url (cloud : Cloud) (queue url : String) :
    Except PinnError (String × String) × List Request :=
  (match cloud.getQueueAttributes url with
    | CallResult.err => Except.error PinnError.serviceError
    | CallResult.ok none => Except.error PinnError.contractViolation
    | CallResult.ok (some arn) => Except.ok (url, arn),
    [Request.getQueueAttributes url])

/-- `handle_create_queue_error` (src/main.rs:223-263): the create-queue failure
handler.  Only a service error with the queue-name-exists condition is
recovered, by looking up the existing queue's URL and then its ARN; every other
failure is propagated with no further calls. -/
def handle_create_queue_error (cloud : Cloud) (isQueueNameExists : Bool)
    (queue : String) : Except PinnError (String × String) × List Request :=
  if isQueueNameExists then
    match cloud.getQueueUrl queue with
    | CallResult.err =>
        (Except.error PinnError.serviceError, [Request.getQueueUrl queue])
    | CallResult.ok none =>
        (Except.error PinnError.contractViolation, [Request.getQueueUrl queue])
    | CallResult.ok (some url) =>
        ((get_queue_arn_from_url cloud queue url).1,
          Request.getQueueUrl queue :: (get_queue_arn_from_url cloud queue url).2)
  else
    (Except.error PinnError.serviceError, [])

/-- The policy computation of `create_queue` (src/main.rs:114-155): a full
document when both region and account id are known, the empty string when
either is missing in a Local or Unknown environment, and the
policy-unresolvable failure otherwise.  `queueName` is the already-suffixed
physical name. -/
def create_queue_policy (env : EnvName) (awsRegion awsAccountId : Option String)
    (queueName : String) : Except PinnError String :=
  match awsRegion, awsAccountId with
  | some region, some accountId =>
      Except.ok (policyDocument region accountId queueName env.as_suffix)
  | _, _ =>
      if env.is_local || env.is_unknown then Except.ok ""
      else Except.error PinnError.policyUnresolvable

/-- The creation protocol of `create_queue` once the policy is resolved
(src/main.rs:157-185): call create-queue with the `Policy` attribute, handle a
creation failure through `handle_create_queue_error`, fail when a success
response omits the URL, and otherwise resolve the ARN from the URL.
`queueName` is the already-suffixed physical name. -/
def create_queue_send (cloud : Cloud) (queueName policy : String) :
    Except PinnError (String × String) × List Request :=
  match cloud.createQueue queueName [("Policy", policy)] with
  | CreateQueueOutcome.ok (some url) =>
      ((get_queue_arn_from_url cloud queueName url).1,
        Request.createQueue queueName [("Policy", policy)]
          :: (get_queue_arn_from_url cloud queueName url).2)
  | CreateQueueOutcome.ok none =>
      (Except.error PinnError.contractViolation,
        [Request.createQueue queueName [("Policy", policy)]])
  | CreateQueueOutcome.errQueueNameExists =>
      ((handle_create_queue_error cloud true queueName).1,
        Request.createQueue queueName [("Policy", policy)]
          :: (handle_create_queue_error cloud true queueName).2)
  | CreateQueueOutcome.errOther =>
      ((handle_create_queue_error cloud false queueName).1,
        Request.createQueue queueName [("Policy", policy)]
          :: (handle_create_queue_error cloud false queueName).2)

/-- `create_queue` (src/main.rs:88-185): compute the physical name and the
policy, fail with no cloud call when the policy is unresolvable, and otherwise
run the creation protocol. -/
def create_queue (cloud : Cloud) (env : EnvName)
    (awsRegion awsAccountId : Option String) (queue : String) :
    Except PinnError (String × String) × List Request :=
  match create_queue_policy env awsRegion awsAccountId (physical_name env queue) with
  | Except.error e => (Except.error e, [])
  | Except.ok policy => create_queue_send cloud (physical_name env queue) policy

/-- `create_subscription` (src/main.rs:269-318): ensure the topic, then
subscribe the queue ARN to it with protocol `sqs`; any failure, including a
success response with no subscription ARN, yields `Err(1)` as in the source. -/
def create_subscription (cloud : Cloud) (env : EnvName) (queueArn topic : String) :
    Except Nat Nat × List Request :=
  match create_topic cloud env topic with
  | (Except.error _, t) => (Except.error 1, t)
  | (Except.ok topicArn, t) =>
    match cloud.subscribe topicArn "sqs" queueArn with
    | CallResult.err =>
        (Except.error 1, t ++ [Request.subscribe topicArn "sqs" queueArn])
    | CallResult.ok none =>
        (Except.error 1, t ++ [Request.subscribe topicArn "sqs" queueArn])
    | CallResult.ok (some _) =>
        (Except.ok 0, t ++ [Request.subscribe topicArn "sqs" queueArn])

/-- One topic task of the sentinel branch (src/main.rs:332-340): 0 on success,
1 on failure. -/
def topic_leaf (cloud : Cloud) (env : EnvName) (topic : String) :
    Nat × List Request :=
  match create_topic cloud env topic with
  | (Except.ok _, t) => (0, t)
  | (Except.error _, t) => (1, t)

/-- One subscription task (src/main.rs:351-356): the task unwraps the
`create_subscription` result, so a failure panics the task and surfaces as a
`JoinError`, which the collection loop maps to 1 (src/main.rs:360-367). -/
def subscription_leaf (cloud : Cloud) (env : EnvName) (queueArn topic : String) :
    Nat × List Request :=
  match create_subscription cloud env queueArn topic with
  | (Except.ok v, t) => (v, t)
  | (Except.error _, t) => (1, t)

/-- `apply_queue_configuration` (src/main.rs:320-370): the sentinel key
`"unsubscribed"` creates the listed topics only; any other key first ensures
the queue (returning `Err(1)` immediately on failure) and then fans out one
subscription task per topic.  Leaf outcomes are summed as a `u8`, i.e. modulo
256. -/
def apply_queue_configuration (cloud : Cloud) (env : EnvName)
    (awsRegion awsAccountId : Option String)
    (queue : String) (config : SQSQueueConfig) : Except Nat Nat × List Request :=
  if queue == "unsubscribed" then
    ((Except.ok
        (((config.topics.map (topic_leaf cloud env)).map (fun leaf => leaf.1)).sum % 256)),
      ((config.topics.map (topic_leaf cloud env)).map (fun leaf => leaf.2)).flatten)
  else
    match create_queue cloud env awsRegion awsAccountId queue with
    | (Except.error _, t) => (Except.error 1, t)
    | (Except.ok (_, queueArn), t) =>
        ((Except.ok
            (((config.topics.map (subscription_leaf cloud env queueArn)).map
                (fun leaf => leaf.1)).sum % 256)),
          t ++ ((config.topics.map (subscription_leaf cloud env queueArn)).map
                  (fun leaf => leaf.2)).flatten)

/-- One queue group's contribution to the final count (src/main.rs:446-463):
`main` maps both the `Ok` and the `Err` payload of `apply_queue_configuration`
to the group's numeric outcome. -/
def group_outcome (cloud : Cloud) (env : EnvName)
    (awsRegion awsAccountId : Option String)
    (entry : String × SQSQueueConfig) : Nat :=
  match apply_queue_configuration cloud env awsRegion awsAccountId entry.1 entry.2 with
  | (Except.ok v, _) => v
  | (Except.error v, _) => v

/-- The exit-code computation at the end of `main` (src/main.rs:456-477): the
group outcomes are summed as a `u8` (modulo 256) and the `force_success` flag
maps any outcome to 0. -/
def main_exit_code (cloud : Cloud) (env : EnvName)
    (awsRegion awsAccountId : Option String)
    (forceSuccess : Bool) (config : PinnConfig) : Nat :=
  let code := (config.map (group_outcome cloud env awsRegion awsAccountId)).sum % 256
  if forceSuccess then 0 else code

/-- Whether a request is a subscribe call. -/
def isSubscribeReq : Request → Bool
  | Request.createTopic _ => false
  | Request.createQueue _ _ => false
  | Request.getQueueUrl _ => false
  | Request.getQueueAttributes _ => false
  | Request.subscribe _ _ _ => true

/-- Whether a request is a create-queue call. -/
def isCreateQueueReq : Request → Bool
  | Request.createTopic _ => false
  | Request.createQueue _ _ => true
  | Request.getQueueUrl _ => false
  | Request.getQueueAttributes _ => false
  | Request.subscribe _ _ _ => false

/-- Whether a request is a create-queue call carrying a `Policy` attribute. -/
def requestHasPolicyAttr : Request → Bool
  | Request.createTopic _ => false
  | Request.createQueue _ attrs => attrs.any (fun kv => kv.1 == "Policy")
  | Request.getQueueUrl _ => false
  | Request.getQueueAttributes _ => false
  | Request.subscribe _ _ _ => false

/-- A cloud whose calls all report success while omitting the field of
interest. -/
def stubCloud : Cloud where
  createTopic := fun _ => CallResult.ok none
  createQueue := fun _ _ => CreateQueueOutcome.ok none
  getQueueUrl := fun _ => CallResult.ok none
  getQueueAttributes := fun _ => CallResult.ok none
  subscribe := fun _ _ _ => CallResult.ok none

/-- A cloud on which every call succeeds with canonical values. -/
def okCloud : Cloud where
  createTopic := fun _ => CallResult.ok (some "tarn")
  createQueue := fun _ _ => CreateQueueOutcome.ok (some "qurl")
  getQueueUrl := fun _ => CallResult.ok (some "qurl")
  getQueueAttributes := fun _ => CallResult.ok (some "qarn")
  subscribe := fun _ _ _ => CallResult.ok (some "sarn")

/-- A cloud on which every call fails outright. -/
def failCloud : Cloud where
  createTopic := fun _ => CallResult.err
  createQueue := fun _ _ => CreateQueueOutcome.errOther
  getQueueUrl := fun _ => CallResult.err
  getQueueAttributes := fun _ => CallResult.err
  subscribe := fun _ _ _ => CallResult.err

/-- A cloud whose create-topic succeeds with an ARN while subscribe succeeds
without returning a subscription ARN. -/
def mixedCloud : Cloud where
  createTopic := fun _ => CallResult.ok (some "tarn")
  createQueue := fun _ _ => CreateQueueOutcome.ok none
  getQueueUrl := fun _ => CallResult.ok none
  getQueueAttributes := fun _ => CallResult.ok none
  subscribe := fun _ _ _ => CallResult.ok none

/-- The request list of a sentinel-branch topic task is the single create-topic
call for the suffixed name. -/
lemma topic_leaf_trace (cloud : Cloud) (env : EnvName) (topic : String) :
    (topic_leaf cloud env topic).2 = [Request.createTopic (physical_name env topic)] := by
  unfold topic_leaf create_topic
  cases cloud.createTopic (physical_name env topic) with
  | err => rfl
  | ok o => cases o <;> rfl

/-- The request list of `get_queue_arn_from_url` is the single
get-queue-attributes call. -/
lemma get_queue_arn_trace (cloud : Cloud) (q url : String) :
    (get_queue_arn_from_url cloud q url).2 = [Request.getQueueAttributes url] := rfl

/-- `handle_create_queue_error` never issues a subscribe call. -/
lemma handle_create_queue_error_no_subscribe (cloud : Cloud) (b : Bool) (q : String) :
    ∀ rq ∈ (handle_create_queue_error cloud b q).2, isSubscribeReq rq = false := by
  unfold handle_create_queue_error
  cases b with
  | false => simp
  | true =>
      cases cloud.getQueueUrl q with
      | err => simp [isSubscribeReq]
      | ok o =>
          cases o with
          | none => simp [isSubscribeReq]
          | some url => simp [get_queue_arn_trace, isSubscribeReq]

/-- `create_queue_send` never issues a subscribe call. -/
lemma create_queue_send_no_subscribe (cloud : Cloud) (queueName policy : String) :
    ∀ rq ∈ (create_queue_send cloud queueName policy).2,
      isSubscribeReq rq = false := by
  unfold create_queue_send
  cases cloud.createQueue queueName [("Policy", policy)] with
  | ok o =>
      cases o with
      | none => simp [isSubscribeReq]
      | some url => simp [get_queue_arn_trace, isSubscribeReq]
  | errQueueNameExists =>
      intro rq hrq
      rcases List.mem_cons.mp hrq with h | h
      · rw [h]; rfl
      · exact handle_create_queue_error_no_subscribe cloud true _ rq h
  | errOther =>
      intro rq hrq
      rcases List.mem_cons.mp hrq with h | h
      · rw [h]; rfl
      · exact handle_create_queue_error_no_subscribe cloud false _ rq h

/-- `create_queue` never issues a subscribe call. -/
lemma create_queue_no_subscribe (cloud : Cloud) (env : EnvName)
    (awsRegion awsAccountId : Option String) (q : String) :
    ∀ rq ∈ (create_queue cloud env awsRegion awsAccountId q).2,
      isSubscribeReq rq = false := by
  cases hp : create_queue_policy env awsRegion awsAccountId (physical_name env q) with
  | error e =>
      have h0 : (create_queue cloud env awsRegion awsAccountId q).2 = [] := by
        unfold create_queue; rw [hp]
      rw [h0]; simp
  | ok policy =>
      have h0 : (create_queue cloud env awsRegion awsAccountId q).2 =
          (create_queue_send cloud (physical_name env q) policy).2 := by
        unfold create_queue; rw [hp]
      rw [h0]
      exact create_queue_send_no_subscribe cloud (physical_name env q) policy

/-- Whenever the policy computation succeeds, the first request `create_queue`
sends is the create-queue call for the physical name carrying the `Policy`
attribute. -/
lemma create_queue_head (cloud : Cloud) (env : EnvName)
    (awsRegion awsAccountId : Option String) (q policy : String)
    (hp : create_queue_policy env awsRegion awsAccountId (physical_name env q) =
      Except.ok policy) :
    (create_queue cloud env awsRegion awsAccountId q).2.head? =
      some (Request.createQueue (physical_name env q) [("Policy", policy)]) := by
  have h0 : create_queue cloud env awsRegion awsAccountId q =
      create_queue_send cloud (physical_name env q) policy := by
    unfold create_queue; rw [hp]
  rw [h0]
  unfold create_queue_send
  cases cloud.createQueue (physical_name env q) [("Policy", policy)] with
  | ok o => cases o <;> rfl
  | errQueueNameExists => rfl
  | errOther => rfl

/-- When either the region or the account id is missing, the policy computation
reduces to the local/unknown test. -/
lemma create_queue_policy_not_both (env : EnvName) (awsRegion awsAccountId : Option String)
    (n : String) (h : awsRegion = none ∨ awsAccountId = none) :
    create_queue_policy env awsRegion awsAccountId n =
      (if env.is_local || env.is_unknown then Except.ok ""
       else Except.error PinnError.policyUnresolvable) := by
  cases awsRegion with
  | none => cases awsAccountId <;> rfl
  | some r =>
      cases awsAccountId with
      | none => rfl
      | some a =>
          rcases h with h | h <;> exact absurd h (by simp)

/-- C1: for every logical name and resolved environment tag, the physical name
sent to the cloud API is the logical name when the tag is Unknown and the
logical name followed by `-` and the tag's suffix otherwise; the create-topic
request and the create-queue request both carry this physical name. -/
theorem c1_physical_name_sent (cloud : Cloud) (env : EnvName)
    (region accountId logical : String) :
    (env = EnvName.Unknown → physical_name env logical = logical) ∧
    (env ≠ EnvName.Unknown →
      physical_name env logical = logical ++ "-" ++ env.as_suffix) ∧
    (create_topic cloud env logical).2 =
      [Request.createTopic (physical_name env logical)] ∧
    (create_queue cloud env (some region) (some accountId) logical).2.head? =
      some (Request.createQueue (physical_name env logical)
        [("Policy",
          policyDocument region accountId (physical_name env logical) env.as_suffix)]) := by
  refine ⟨?_, ?_, rfl, ?_⟩
  · intro h; subst h; rfl
  · intro h
    cases env <;> first | rfl | exact absurd rfl h
  · exact create_queue_head cloud env (some region) (some accountId) logical _ rfl

/-- C1 witness: in the Prod environment the topic request uses the suffixed
name. -/
theorem c1_physical_name_sent_wit :
    physical_name EnvName.Prod "orders" = "orders" ++ "-" ++ EnvName.Prod.as_suffix ∧
    (create_topic stubCloud EnvName.Prod "orders").2 =
      [Request.createTopic (physical_name EnvName.Prod "orders")] := by
  have h := c1_physical_name_sent stubCloud EnvName.Prod "us-east-1" "123456789012" "orders"
  exact ⟨h.2.1 (by decide), h.2.2.1⟩

/-- C3: during queue creation only the queue-name-already-exists condition is
recovered, by looking up the existing queue's URL by name and then fetching its
ARN; any other create-queue failure is returned as an error with no further
calls. -/
theorem c3_adoption_only_recovery (cloud : Cloud) (q url arn : String) :
    handle_create_queue_error cloud false q =
      (Except.error PinnError.serviceError, []) ∧
    (cloud.getQueueUrl q = CallResult.ok (some url) →
      handle_create_queue_error cloud true q =
        ((get_queue_arn_from_url cloud q url).1,
          Request.getQueueUrl q :: (get_queue_arn_from_url cloud q url).2)) ∧
    (cloud.getQueueUrl q = CallResult.ok (some url) →
     cloud.getQueueAttributes url = CallResult.ok (some arn) →
      handle_create_queue_error cloud true q =
        (Except.ok (url, arn),
          [Request.getQueueUrl q, Request.getQueueAttributes url])) := by
  refine ⟨rfl, ?_, ?_⟩
  · intro h
    unfold handle_create_queue_error
    rw [h]
    rfl
  · intro h h2
    have hh : handle_create_queue_error cloud true q =
        ((get_queue_arn_from_url cloud q url).1,
          Request.getQueueUrl q :: (get_queue_arn_from_url cloud q url).2) := by
      unfold handle_create_queue_error
      rw [h]
      rfl
    rw [hh]
    unfold get_queue_arn_from_url
    rw [h2]

/-- C3 witness: on a cloud where the lookups succeed, the adoption path returns
the adopted queue's URL and ARN, and a non-name-exists failure recovers
nothing. -/
theorem c3_adoption_only_recovery_wit :
    handle_create_queue_error okCloud false "billing" =
      (Except.error PinnError.serviceError, []) ∧
    handle_create_queue_error okCloud true "billing" =
      (Except.ok ("qurl", "qarn"),
        [Request.getQueueUrl "billing", Request.getQueueAttributes "qurl"]) := by
  have h := c3_adoption_only_recovery okCloud "billing" "qurl" "qarn"
  exact ⟨h.1, h.2.2 rfl rfl⟩

/-- C4 counterexample: in the Local environment with region and account id both
unknown, the create-queue request still carries a `Policy` attribute (with the
empty string as its value), so it is not the case that no policy attribute is
sent at all. -/
theorem c4_empty_policy_attribute_sent :
    ((create_queue stubCloud EnvName.Local none none "q").2).any
        requestHasPolicyAttr = true := by
  rfl

/-- C4 amended: with region and account id both known the generated policy
document is attached to the create-queue request; with either unknown in a
Local or Unknown environment the request carries a `Policy` attribute whose
value is the empty string (no policy document); with either unknown in any
other environment `create_queue` fails with `policyUnresolvable` before any
cloud call. -/
theorem c4_policy_attribute_resolution (cloud : Cloud) (env : EnvName)
    (region accountId q : String) (awsRegion awsAccountId : Option String) :
    ((create_queue cloud env (some region) (some accountId) q).2.head? =
      some (Request.createQueue (physical_name env q)
        [("Policy",
          policyDocument region accountId (physical_name env q) env.as_suffix)])) ∧
    ((awsRegion = none ∨ awsAccountId = none) →
      (env.is_local || env.is_unknown) = true →
      (create_queue cloud env awsRegion awsAccountId q).2.head? =
        some (Request.createQueue (physical_name env q) [("Policy", "")])) ∧
    ((awsRegion = none ∨ awsAccountId = none) →
      (env.is_local || env.is_unknown) = false →
      create_queue cloud env awsRegion awsAccountId q =
        (Except.error PinnError.policyUnresolvable, [])) := by
  refine ⟨?_, ?_, ?_⟩
  · exact create_queue_head cloud env (some region) (some accountId) q _ rfl
  · intro hra hloc
    have hp : create_queue_policy env awsRegion awsAccountId (physical_name env q) =
        Except.ok "" := by
      rw [create_queue_policy_not_both env awsRegion awsAccountId _ hra, if_pos hloc]
    exact create_queue_head cloud env awsRegion awsAccountId q "" hp
  · intro hra hloc
    have hp : create_queue_policy env awsRegion awsAccountId (physical_name env q) =
        Except.error PinnError.policyUnresolvable := by
      rw [create_queue_policy_not_both env awsRegion awsAccountId _ hra,
        if_neg (by simp [hloc])]
    unfold create_queue
    rw [hp]

/-- C4 witness: in the Unknown environment with nothing known an empty-valued
`Policy` attribute is sent; in the Prod environment with nothing known the
call fails with `policyUnresolvable` and an empty request list. -/
theorem c4_policy_attribute_resolution_wit :
    (create_queue stubCloud EnvName.Unknown none none "q").2.head? =
      some (Request.createQueue "q" [("Policy", "")]) ∧
    create_queue stubCloud EnvName.Prod none none "q" =
      (Except.error PinnError.policyUnresolvable, []) := by
  have h1 := c4_policy_attribute_resolution stubCloud EnvName.Unknown "r" "a" "q" none none
  have h2 := c4_policy_attribute_resolution stubCloud EnvName.Prod "r" "a" "q" none none
  exact ⟨h1.2.1 (Or.inl rfl) rfl, h2.2.2 (Or.inl rfl) rfl⟩

/-- C5: for every known region and account id, non-Unknown environment and
queue logical name, the policy sent with the create-queue request grants
`sqs:SendMessage` to principal `sns.amazonaws.com` on resource exactly
`arn:aws:sqs:region:accountId:queue-suffix`, conditioned on `SourceArn`
matching exactly `arn:aws:sns:region:accountId:*-suffix` (followed by the
account-root statement). -/
theorem c5_policy_grants (cloud : Cloud) (env : EnvName)
    (region accountId q : String) (h : env ≠ EnvName.Unknown) :
    (create_queue cloud env (some region) (some accountId) q).2.head? =
      some (Request.createQueue (q ++ "-" ++ env.as_suffix)
        [("Policy",
          polHead ++ sqsArn region accountId (q ++ "-" ++ env.as_suffix)
            ++ polCondPart ++ snsSourceArnPattern region accountId env.as_suffix
            ++ polPrincipalPart ++ iamRootArn accountId
            ++ polStmt2Part ++ sqsArn region accountId (q ++ "-" ++ env.as_suffix)
            ++ polTailPart)]) := by
  have hn : physical_name env q = q ++ "-" ++ env.as_suffix := by
    cases env <;> first | rfl | exact absurd rfl h
  have h2 := create_queue_head cloud env (some region) (some accountId) q
    (policyDocument region accountId (physical_name env q) env.as_suffix) rfl
  rw [hn] at h2
  simpa only [policyDocument] using h2

/-- C5 witness: the concrete instance of the spec (region us-east-1, account
123456789012, environment Prod with suffix prod, queue orders). -/
theorem c5_policy_grants_wit :
    ((create_queue stubCloud EnvName.Prod (some "us-east-1") (some "123456789012")
        "orders").2.head? =
      some (Request.createQueue ("orders" ++ "-" ++ EnvName.Prod.as_suffix)
        [("Policy",
          polHead ++ sqsArn "us-east-1" "123456789012"
              ("orders" ++ "-" ++ EnvName.Prod.as_suffix)
            ++ polCondPart
            ++ snsSourceArnPattern "us-east-1" "123456789012" EnvName.Prod.as_suffix
            ++ polPrincipalPart ++ iamRootArn "123456789012"
            ++ polStmt2Part ++ sqsArn "us-east-1" "123456789012"
              ("orders" ++ "-" ++ EnvName.Prod.as_suffix)
            ++ polTailPart)])) ∧
    sqsArn "us-east-1" "123456789012" ("orders" ++ "-" ++ EnvName.Prod.as_suffix) =
      "arn:aws:sqs:us-east-1:123456789012:orders-prod" ∧
    snsSourceArnPattern "us-east-1" "123456789012" EnvName.Prod.as_suffix =
      "arn:aws:sns:us-east-1:123456789012:*-prod" := by
  refine ⟨c5_policy_grants stubCloud EnvName.Prod "us-east-1" "123456789012" "orders"
    (by decide), ?_, ?_⟩ <;> decide

/-- C6 counterexample: in the Dev environment the queue suffix table gives
`development` while the topic suffix table gives `dev`, so the suffix used to
name a queue differs from the suffix used to name a topic. -/
theorem c6_dev_suffixes_differ :
    EnvName.for_queue EnvName.Dev ≠ EnvName.for_topic EnvName.Dev := by decide

/-- C6 amended: the queue and topic suffix tables agree exactly on the QA,
Local and Unknown environments and disagree on Dev (development versus dev) and
Prod (production versus prod). -/
theorem c6_suffix_tables (env : EnvName) :
    (EnvName.for_queue env = EnvName.for_topic env ↔
      env ≠ EnvName.Dev ∧ env ≠ EnvName.Prod) ∧
    EnvName.for_queue EnvName.Dev = "development" ∧
    EnvName.for_topic EnvName.Dev = "dev" ∧
    EnvName.for_queue EnvName.Prod = "production" ∧
    EnvName.for_topic EnvName.Prod = "prod" := by
  cases env <;> exact ⟨by decide, rfl, rfl, rfl, rfl⟩

/-- C7: for a group whose key is exactly the string `unsubscribed`, the engine
issues exactly one create-topic call per listed topic (with the physical,
environment-suffixed name) and zero create-queue calls and zero subscribe
calls. -/
theorem c7_sentinel_topics_only (cloud : Cloud) (env : EnvName)
    (awsRegion awsAccountId : Option String) (topics : List String) :
    (apply_queue_configuration cloud env awsRegion awsAccountId "unsubscribed"
        ⟨topics⟩).2 =
      topics.map (fun t => Request.createTopic (physical_name env t)) ∧
    ((apply_queue_configuration cloud env awsRegion awsAccountId "unsubscribed"
          ⟨topics⟩).2.countP
        (fun rq => isCreateQueueReq rq || isSubscribeReq rq)) = 0 := by
  have htrace : (apply_queue_configuration cloud env awsRegion awsAccountId
      "unsubscribed" ⟨topics⟩).2 =
      topics.map (fun t => Request.createTopic (physical_name env t)) := by
    show (((topics.map (topic_leaf cloud env)).map (fun leaf => leaf.2)).flatten) = _
    induction topics with
    | nil => rfl
    | cons t ts ih =>
        simp only [List.map_cons, List.flatten_cons, topic_leaf_trace, ih,
          List.singleton_append]
  refine ⟨htrace, ?_⟩
  rw [htrace, List.countP_eq_zero]
  intro rq hrq
  obtain ⟨t, -, rfl⟩ := List.mem_map.mp hrq
  simp [isCreateQueueReq, isSubscribeReq]

set_option maxRecDepth 4096 in
/-- C2: at a failing input the reported exit value wraps rather than
saturates.  With one sentinel group of 256 topics on a cloud where every call
fails and with force_success unset, all 256 leaf operations fail yet the exit
value is 0, because the u8 accumulator sums modulo 256; with force_success set
the reported outcome is 0 as the claim states. -/
theorem c2_exit_code_wraps_at_256 :
    main_exit_code failCloud EnvName.Unknown none none false
        [("unsubscribed", SQSQueueConfig.mk (List.replicate 256 "t"))] = 0 ∧
    ((((List.replicate 256 "t").map (topic_leaf failCloud EnvName.Unknown)).map
        (fun leaf => leaf.1)).sum = 256) ∧
    main_exit_code failCloud EnvName.Unknown none none true
        [("unsubscribed", SQSQueueConfig.mk (List.replicate 256 "t"))] = 0 := by
  refine ⟨?_, ?_, ?_⟩ <;> decide

/-- C8: whenever a call reports success but omits the guaranteed field — the
topic ARN from create-topic, the queue ARN from get-queue-attributes, or the
subscription ARN from subscribe — the affected leaf operation fails
immediately, its request list showing that no further (retry) call is made. -/
theorem c8_contract_violation_fatal (cloud : Cloud) (env : EnvName)
    (q url queueArn topic topicArn : String) :
    (cloud.createTopic (physical_name env topic) = CallResult.ok none →
      create_topic cloud env topic =
        (Except.error PinnError.contractViolation,
          [Request.createTopic (physical_name env topic)])) ∧
    (cloud.getQueueAttributes url = CallResult.ok none →
      get_queue_arn_from_url cloud q url =
        (Except.error PinnError.contractViolation,
          [Request.getQueueAttributes url])) ∧
    (cloud.createTopic (physical_name env topic) = CallResult.ok (some topicArn) →
     cloud.subscribe topicArn "sqs" queueArn = CallResult.ok none →
      create_subscription cloud env queueArn topic =
        (Except.error 1,
          [Request.createTopic (physical_name env topic),
            Request.subscribe topicArn "sqs" queueArn])) := by
  refine ⟨?_, ?_, ?_⟩
  · intro h
    unfold create_topic
    rw [h]
  · intro h
    unfold get_queue_arn_from_url
    rw [h]
  · intro h1 h2
    have ht : create_topic cloud env topic =
        (Except.ok topicArn, [Request.createTopic (physical_name env topic)]) := by
      unfold create_topic
      rw [h1]
    simp only [create_subscription, ht, h2, List.cons_append, List.nil_append]

/-- C8 witness: concrete clouds whose success responses omit the ARN make each
of the three leaves fail with exactly one call (no retry) for create-topic and
get-queue-attributes, and exactly the topic call plus the subscribe call for
create-subscription. -/
theorem c8_contract_violation_fatal_wit :
    create_topic stubCloud EnvName.Unknown "t" =
      (Except.error PinnError.contractViolation, [Request.createTopic "t"]) ∧
    get_queue_arn_from_url stubCloud "q" "u" =
      (Except.error PinnError.contractViolation, [Request.getQueueAttributes "u"]) ∧
    create_subscription mixedCloud EnvName.Unknown "qarn" "t" =
      (Except.error 1,
        [Request.createTopic "t", Request.subscribe "tarn" "sqs" "qarn"]) := by
  have h1 := c8_contract_violation_fatal stubCloud EnvName.Unknown "q" "u" "qarn" "t" "tarn"
  have h2 := c8_contract_violation_fatal mixedCloud EnvName.Unknown "q" "u" "qarn" "t" "tarn"
  exact ⟨h1.1 rfl, h1.2.1 rfl, h2.2.2 rfl rfl⟩

/-- C9: for a non-sentinel group the whole request list is the create-queue
phase followed by the concatenated subscription phases — the queue phase,
which contains no subscribe request, completes before any subscription request
is issued — and on queue success exactly one subscription unit is issued per
configured topic. -/
theorem c9_queue_before_subscriptions (cloud : Cloud) (env : EnvName)
    (awsRegion awsAccountId : Option String) (queue url queueArn : String)
    (tq : List Request) (topics : List String)
    (hq : queue ≠ "unsubscribed")
    (hc : create_queue cloud env awsRegion awsAccountId queue =
      (Except.ok (url, queueArn), tq)) :
    apply_queue_configuration cloud env awsRegion awsAccountId queue ⟨topics⟩ =
      (Except.ok
          (((topics.map (subscription_leaf cloud env queueArn)).map
              (fun leaf => leaf.1)).sum % 256),
        tq ++ ((topics.map (subscription_leaf cloud env queueArn)).map
                (fun leaf => leaf.2)).flatten) ∧
    (topics.map (subscription_leaf cloud env queueArn)).length = topics.length ∧
    (∀ rq ∈ tq, isSubscribeReq rq = false) := by
  refine ⟨?_, List.length_map _ _, ?_⟩
  · unfold apply_queue_configuration
    rw [if_neg (by simpa using hq), hc]
  · intro rq hrq
    have h := create_queue_no_subscribe cloud env awsRegion awsAccountId queue
    rw [hc] at h
    exact h rq hrq

/-- C9 witness: a two-topic group on a fully succeeding cloud reports success
and its queue phase contains no subscribe request. -/
theorem c9_queue_before_subscriptions_wit :
    (apply_queue_configuration okCloud EnvName.Unknown none none "billing"
        ⟨["invoice-created", "invoice-paid"]⟩).1 = Except.ok 0 ∧
    (∀ rq ∈ [Request.createQueue "billing" [("Policy", "")],
        Request.getQueueAttributes "qurl"], isSubscribeReq rq = false) := by
  have h := c9_queue_before_subscriptions okCloud EnvName.Unknown none none
    "billing" "qurl" "qarn"
    [Request.createQueue "billing" [("Policy", "")], Request.getQueueAttributes "qurl"]
    ["invoice-created", "invoice-paid"] (by decide) rfl
  exact ⟨by rw [h.1]; rfl, h.2.2⟩

/-- C10: when create-queue fails for a non-sentinel group, the group resolves
to `Err 1` — contributing exactly one failure to the aggregate regardless of
how many topics it lists — and no subscribe request is ever issued for the
group. -/
theorem c10_queue_failure_single (cloud : Cloud) (env : EnvName)
    (awsRegion awsAccountId : Option String) (queue : String) (e : PinnError)
    (tq : List Request) (topics : List String)
    (hq : queue ≠ "unsubscribed")
    (hc : create_queue cloud env awsRegion awsAccountId queue =
      (Except.error e, tq)) :
    apply_queue_configuration cloud env awsRegion awsAccountId queue ⟨topics⟩ =
      (Except.error 1, tq) ∧
    group_outcome cloud env awsRegion awsAccountId (queue, ⟨topics⟩) = 1 ∧
    (∀ rq ∈ (apply_queue_configuration cloud env awsRegion awsAccountId queue
        ⟨topics⟩).2, isSubscribeReq rq = false) := by
  have happ : apply_queue_configuration cloud env awsRegion awsAccountId queue
      ⟨topics⟩ = (Except.error 1, tq) := by
    unfold apply_queue_configuration
    rw [if_neg (by simpa using hq), hc]
  refine ⟨happ, ?_, ?_⟩
  · show (match apply_queue_configuration cloud env awsRegion awsAccountId queue
        ⟨topics⟩ with
      | (Except.ok v, _) => v
      | (Except.error v, _) => v) = 1
    rw [happ]
  · intro rq hrq
    rw [happ] at hrq
    have h := create_queue_no_subscribe cloud env awsRegion awsAccountId queue
    rw [hc] at h
    exact h rq hrq

/-- C10 witness: a three-topic group whose queue creation fails (Prod with no
region/account) yields exactly one failure and an empty request list. -/
theorem c10_queue_failure_single_wit :
    apply_queue_configuration failCloud EnvName.Prod none none "q"
        ⟨["t1", "t2", "t3"]⟩ = (Except.error 1, []) ∧
    group_outcome failCloud EnvName.Prod none none ("q", ⟨["t1", "t2", "t3"]⟩) = 1 := by
  have h := c10_queue_failure_single failCloud EnvName.Prod none none "q"
    PinnError.policyUnresolvable [] ["t1", "t2", "t3"] (by decide) rfl
  exact ⟨h.1, h.2.1⟩

end Pinnothera
